import Mathlib

/-!
Verification development for the anthropic-error-min-repro harness.

The repository contains a mock MCP tool server in two variants
(src/mcp.mjs allocates a fresh server per request; src/unnamed/part_001
shares one module-level server across requests) and driver scripts
(src/anthropic.mjs, src/unnamed/part_002) that open one or more streams
against it and classify per-stream outcomes.

The incremental message assembly protocol (the "Stream Assembler" of the
spec) lives in the Anthropic SDK, outside this repository's sources, so it
is modelled here directly from the spec's words (sections 4.1 and 7); the
server handlers, tool handlers and driver verdict logic are embedded from
the repository's sources.
-/

namespace Assembler

/-- Modelled from the spec: the `kind` tag of a WireEvent (spec section 3);
the Assembler itself is the Anthropic SDK MessageStream, which is not under
src/, so the whole Assembler state machine is modelled from spec 4.1. -/
inductive EventKind
  | message_start
  | block_start
  | block_delta
  | block_stop
  | message_delta
  | message_stop
  | error
deriving DecidableEq

/-- Modelled from the spec: a discriminated wire record; payload fields are
flattened into one record, each `kind` reading only the fields its payload
shape carries (spec section 3). -/
structure WireEvent where
  kind : EventKind
  mid : String
  role : String
  index : Nat
  blockType : String
  delta : String
  stopReason : Option String
  usage : List (String × Nat)
  errPayload : String
deriving DecidableEq

/-- Modelled from the spec: one ContentBlock — type fixed at creation,
content grown by deltas, sealed flag set by block_stop (spec section 3). -/
structure Block where
  btype : String
  content : String
  isSealed : Bool
deriving DecidableEq

/-- Modelled from the spec: the in-progress Message — identifier and role
from message_start, ordered blocks keyed by their `block_start` index,
stop_reason and usage merged from message_delta events (spec section 3). -/
structure PartialMessage where
  mid : String
  role : String
  blocks : List (Nat × Block)
  stopReason : Option String
  usage : List (String × Nat)
deriving DecidableEq

/-- Per-key overwrite of one usage counter (spec: "merge = shallow
overwrite of named counters, not replacement of the whole record"). -/
def setKey (l : List (String × Nat)) (k : String) (v : Nat) :
    List (String × Nat) :=
  if l.any (fun p => p.1 == k) then
    l.map (fun p => if p.1 == k then (k, v) else p)
  else
    l ++ [(k, v)]

/-- Modelled from the spec: usage merge of a message_delta event. -/
def mergeUsage (old incoming : List (String × Nat)) : List (String × Nat) :=
  incoming.foldl (fun acc p => setKey acc p.1 p.2) old

def lookupBlock (bs : List (Nat × Block)) (i : Nat) : Option Block :=
  (bs.find? (fun p => p.1 == i)).map (fun p => p.2)

def updateBlock (bs : List (Nat × Block)) (i : Nat) (b : Block) :
    List (Nat × Block) :=
  bs.map (fun p => if p.1 == i then (i, b) else p)

/-- Modelled from the spec: the error taxonomy visible to the Assembler —
a malformed or out-of-order event (ProtocolViolation) or an explicit
`error` wire event (spec section 7). -/
inductive AsmError
  | protocolViolation (reason : String)
  | explicitError (payload : String)
deriving DecidableEq

/-- Modelled from the spec: the Assembler state machine
`Idle → Started → ... → Complete | Failed` (spec 4.1); `failed` carries the
last-known in-progress message so a failed assembly can expose it
(spec section 7). -/
inductive AsmState
  | idle
  | started (m : PartialMessage)
  | complete (m : PartialMessage)
  | failed (e : AsmError) (m : Option PartialMessage)
deriving DecidableEq

/-- Modelled from the spec: `consume(event)` (spec 4.1). Terminal states
absorb: after an `error` event "no further events are processed", and any
event after `message_stop` is out of sequence, hence a ProtocolViolation.
Preconditions follow spec 4.1 clause by clause; every malformed transition
moves to `failed`, never a silent no-op. -/
def consume (s : AsmState) (ev : WireEvent) : AsmState :=
  match s with
  | .failed e m => .failed e m
  | .complete m => .failed (.protocolViolation "event after message_stop") (some m)
  | .idle =>
    match ev.kind with
    | .message_start => .started ⟨ev.mid, ev.role, [], none, ev.usage⟩
    | _ => .failed (.protocolViolation "event before message_start") none
  | .started m =>
    match ev.kind with
    | .message_start => .failed (.protocolViolation "duplicate message_start") (some m)
    | .block_start =>
      match lookupBlock m.blocks ev.index with
      | some _ => .failed (.protocolViolation "block index already created") (some m)
      | none => .started { m with blocks := m.blocks ++ [(ev.index, ⟨ev.blockType, "", false⟩)] }
    | .block_delta =>
      match lookupBlock m.blocks ev.index with
      | none => .failed (.protocolViolation "delta addressed to a block with no prior block_start") (some m)
      | some b =>
        if b.isSealed then
          .failed (.protocolViolation "delta to sealed block") (some m)
        else if b.btype != ev.blockType then
          .failed (.protocolViolation "delta type incompatible with block type") (some m)
        else
          .started { m with blocks := updateBlock m.blocks ev.index ⟨b.btype, b.content ++ ev.delta, false⟩ }
    | .block_stop =>
      match lookupBlock m.blocks ev.index with
      | none => .failed (.protocolViolation "block_stop for a block with no prior block_start") (some m)
      | some b =>
        if b.isSealed then
          .failed (.protocolViolation "block already sealed") (some m)
        else
          .started { m with blocks := updateBlock m.blocks ev.index ⟨b.btype, b.content, true⟩ }
    | .message_delta =>
      .started { m with
        stopReason := match ev.stopReason with
          | some r => some r
          | none => m.stopReason,
        usage := mergeUsage m.usage ev.usage }
    | .error => .failed (.explicitError ev.errPayload) (some m)
    | .message_stop =>
      if m.blocks.all (fun p => p.2.isSealed) then .complete m
      else .failed (.protocolViolation "message_stop with unsealed blocks") (some m)

/-- Count of unsealed blocks of an in-progress message. -/
def unsealedCount (m : PartialMessage) : Nat :=
  (m.blocks.filter (fun p => !p.2.isSealed)).length

/-- Modelled from the spec: the result of `finalize()` — the completed
Message on `Complete`; `IncompleteStream` carrying the last-known
in-progress Message and the unsealed-block count when the transport closed
before any terminal event; the recorded failure when the stream already
entered `Failed` (spec 4.1: IncompleteStream is the condition of a stream
that ends "without the logical message_stop event and without an error
event ever having been delivered"; spec section 7 requires the three error
kinds to remain distinguishable). -/
inductive FinalizeResult
  | ok (m : PartialMessage)
  | incompleteStream (lastKnown : Option PartialMessage) (unsealed : Nat)
  | failedStream (e : AsmError) (lastKnown : Option PartialMessage)
deriving DecidableEq

/-- Modelled from the spec: `finalize()` (spec 4.1), called once the
transport has signaled end-of-stream. -/
def finalize (s : AsmState) : FinalizeResult :=
  match s with
  | .complete m => .ok m
  | .failed e m => .failedStream e m
  | .idle => .incompleteStream none 0
  | .started m => .incompleteStream (some m) (unsealedCount m)

/-- Folding a whole observed event sequence from the initial state. -/
def runConsume (evs : List WireEvent) : AsmState :=
  evs.foldl consume .idle

def AsmState.isComplete : AsmState → Bool
  | .complete _ => true
  | _ => false

def AsmState.isFailed : AsmState → Bool
  | .failed _ _ => true
  | _ => false

def FinalizeResult.isOk : FinalizeResult → Bool
  | .ok _ => true
  | _ => false

def FinalizeResult.isIncomplete : FinalizeResult → Bool
  | .incompleteStream _ _ => true
  | _ => false

/-- The last-known in-progress message held by a state. -/
def stateMessage : AsmState → Option PartialMessage
  | .idle => none
  | .started m => some m
  | .complete m => some m
  | .failed _ m => m

/-- Unsealed-block count held by a state (0 outside assembly). -/
def stateUnsealed : AsmState → Nat
  | .started m => unsealedCount m
  | _ => 0

/-- The sequence contains no terminal message_stop event. -/
def noStop (evs : List WireEvent) : Bool :=
  evs.all (fun e => e.kind != EventKind.message_stop)

/-- A message_start event with the given identifier and role. -/
def msgStartEvt (mid role : String) : WireEvent :=
  ⟨.message_start, mid, role, 0, "", "", none, [], ""⟩

/-- An explicit error wire event with the given payload. -/
def errEvt (payloadMsg : String) : WireEvent :=
  ⟨.error, "", "", 0, "", "", none, [], payloadMsg⟩

theorem consume_not_complete (s : AsmState) (ev : WireEvent)
    (h : ev.kind ≠ EventKind.message_stop) :
    (consume s ev).isComplete = false := by
  obtain ⟨k, mid, role, idx, bt, d, sr, us, ep⟩ := ev
  cases s <;> cases k <;>
    first
      | exact absurd rfl h
      | ((try simp only [consume]) <;> (try split) <;> (try split) <;>
          (try split) <;> rfl)

theorem foldl_consume_not_complete (evs : List WireEvent) :
    ∀ s : AsmState, noStop evs = true → s.isComplete = false →
      (evs.foldl consume s).isComplete = false := by
  induction evs with
  | nil => intro s _ hs; simpa using hs
  | cons e tl ih =>
    intro s hns hs
    simp only [noStop, List.all_cons, Bool.and_eq_true, bne_iff_ne, ne_eq] at hns
    apply ih (consume s e)
    · exact hns.2
    · exact consume_not_complete s e hns.1

/-- The only transition into the `complete` state is a message_stop event,
so a sequence with no message_stop never reaches `complete`. -/
theorem runConsume_not_complete (evs : List WireEvent)
    (h : noStop evs = true) : (runConsume evs).isComplete = false :=
  foldl_consume_not_complete evs .idle h rfl

/-- C2 (amended): for any event sequence in which no message_stop event is
observed before the transport closes, finalize never returns success (and,
as a total function, never hangs); if moreover the assembly never entered
the Failed terminal state (no explicit error event and no protocol
violation), finalize fails with the distinct IncompleteStream error
carrying the last-known partial message and its unsealed-block count. -/
theorem finalize_noStop_incompleteStream (evs : List WireEvent)
    (h : noStop evs = true) :
    (finalize (runConsume evs)).isOk = false ∧
      ((runConsume evs).isFailed = false →
        finalize (runConsume evs) =
          FinalizeResult.incompleteStream (stateMessage (runConsume evs))
            (stateUnsealed (runConsume evs))) := by
  have hc : (runConsume evs).isComplete = false := runConsume_not_complete evs h
  constructor
  · cases hs : runConsume evs <;>
      simp_all [finalize, FinalizeResult.isOk, AsmState.isComplete]
  · intro hf
    cases hs : runConsume evs <;>
      simp_all [finalize, stateMessage, stateUnsealed, AsmState.isFailed,
        AsmState.isComplete]

/-- Witness for C2's amended theorem at a concrete truncated stream: a
single message_start and then transport closure. -/
theorem finalize_noStop_incompleteStream_witness :
    (finalize (runConsume [msgStartEvt "msg_1" "assistant"])).isOk = false ∧
      ((runConsume [msgStartEvt "msg_1" "assistant"]).isFailed = false →
        finalize (runConsume [msgStartEvt "msg_1" "assistant"]) =
          FinalizeResult.incompleteStream
            (stateMessage (runConsume [msgStartEvt "msg_1" "assistant"]))
            (stateUnsealed (runConsume [msgStartEvt "msg_1" "assistant"]))) :=
  finalize_noStop_incompleteStream [msgStartEvt "msg_1" "assistant"]
    (by decide)

/-- Counterexample to C2 as stated: the sequence
[message_start, error "overloaded"] contains no message_stop, yet finalize
does not report IncompleteStream — it reports the explicit error the
stream delivered (spec 4.1's error-event rule and spec section 7's
requirement that "explicit error" stay distinguishable from "silently
truncated" force this); it still never reports success. -/
theorem finalize_noStop_error_not_incomplete :
    noStop [msgStartEvt "msg_1" "assistant", errEvt "overloaded"] = true ∧
      (finalize (runConsume
        [msgStartEvt "msg_1" "assistant", errEvt "overloaded"])).isIncomplete
        = false ∧
      (finalize (runConsume
        [msgStartEvt "msg_1" "assistant", errEvt "overloaded"])).isOk
        = false := by
  decide

/-- Sanity check on a fully valid concrete stream: message_start, one text
block opened, extended twice and sealed, a message_delta, then
message_stop — finalize yields the completed message with the
concatenated block content. -/
theorem finalize_valid_stream_ok :
    finalize (runConsume
      [msgStartEvt "msg_1" "assistant",
        ⟨.block_start, "", "", 0, "text", "", none, [], ""⟩,
        ⟨.block_delta, "", "", 0, "text", "Hello ", none, [], ""⟩,
        ⟨.block_delta, "", "", 0, "text", "world", none, [], ""⟩,
        ⟨.block_stop, "", "", 0, "", "", none, [], ""⟩,
        ⟨.message_delta, "", "", 0, "", "", some "end_turn", [("output_tokens", 7)], ""⟩,
        ⟨.message_stop, "", "", 0, "", "", none, [], ""⟩]) =
      FinalizeResult.ok
        ⟨"msg_1", "assistant", [(0, ⟨"text", "Hello world", true⟩)],
          some "end_turn", [("output_tokens", 7)]⟩ := by
  decide

/-- Sanity check on the spec's concrete truncation scenario (section 8):
message_start, block 0 opened and sealed, block 1 opened, then transport
closure — finalize reports IncompleteStream with one sealed and one
unsealed block. -/
theorem finalize_truncated_stream_incomplete :
    finalize (runConsume
      [msgStartEvt "msg_1" "assistant",
        ⟨.block_start, "", "", 0, "tool_use", "", none, [], ""⟩,
        ⟨.block_stop, "", "", 0, "", "", none, [], ""⟩,
        ⟨.block_start, "", "", 1, "tool_result", "", none, [], ""⟩]) =
      FinalizeResult.incompleteStream
        (some ⟨"msg_1", "assistant",
          [(0, ⟨"tool_use", "", true⟩), (1, ⟨"tool_result", "", false⟩)],
          none, []⟩) 1 := by
  decide

end Assembler

namespace Router

/-- An MCP server instance as the /mcp handlers allocate it: an allocation
identity plus its mutable per-request state (the handler registrations
bound to it). Two connections share mutable per-request state exactly when
they are bound to the same instance. -/
structure McpServerInst where
  instanceId : Nat
  registeredTools : List String
deriving DecidableEq

/-- A StreamableHTTPServerTransport allocation: both handlers construct a
new one per request (src/mcp.mjs:138-141, src/unnamed/part_001:106-109). -/
structure TransportInst where
  transportId : Nat
deriving DecidableEq

namespace McpMjs

/-- The three tools registered by createServer (src/mcp.mjs:61-120). -/
def toolNames : List String :=
  ["get-profile", "query-database", "enrich-data"]

/-- createServer (src/mcp.mjs:45-125): constructs a new McpServer and
registers the three tools on it. The Nat argument is the allocation
ordinal of the call: distinct calls yield distinct instances, which the
embedding records as distinct instanceIds. -/
def createServer (freshId : Nat) : McpServerInst :=
  ⟨freshId, toolNames⟩

/-- app.post('/mcp') (src/mcp.mjs:131-173): for the k-th accepted
connection, allocates a new transport and calls createServer for a new
server instance, then connects them. -/
def acceptConnection (k : Nat) : McpServerInst × TransportInst :=
  (createServer k, ⟨k⟩)

end McpMjs

namespace Part001

/-- The module-level shared server of the variant server
(src/unnamed/part_001:37-48): constructed once, before any connection. -/
def sharedServer : McpServerInst :=
  ⟨0, ["get-data"]⟩

/-- app.post('/mcp') (src/unnamed/part_001:100-136): for the k-th accepted
connection, allocates a new transport but connects the one module-level
server to it — the same instance for every connection. -/
def acceptConnection (k : Nat) : McpServerInst × TransportInst :=
  (sharedServer, ⟨k⟩)

end Part001

/-- C1: evaluated at two concurrently-accepted connections. In the
src/unnamed/part_001 handler both connections are bound to the same server
instance (shared handler registrations — the anti-pattern the harness
exists to expose), although each gets a fresh transport; in the
src/mcp.mjs handler the server instances are distinct, so there the claim
holds by construction. -/
theorem part001_shares_server_instance :
    (Part001.acceptConnection 0).1 = (Part001.acceptConnection 1).1 ∧
      (Part001.acceptConnection 0).2 ≠ (Part001.acceptConnection 1).2 ∧
      (McpMjs.acceptConnection 0).1 ≠ (McpMjs.acceptConnection 1).1 ∧
      (McpMjs.acceptConnection 0).2 ≠ (McpMjs.acceptConnection 1).2 := by
  decide

/-- One step of an interleaved run of the /mcp endpoint: the router either
accepts connection c (allocating its transport and running
server.connect), or the server finishes handling c's request and sends the
reply. -/
inductive Action
  | accept (c : Nat)
  | reply (c : Nat)

namespace Part001

/-- Router state of the shared-server variant: the transport the one
shared server is currently bound to, and the deliveries made so far as
pairs (transport the event was written to, connection whose request
generated the content). -/
structure RouterState where
  boundTransport : Option Nat
  deliveries : List (Nat × Nat)
deriving DecidableEq

/-- Modelled from the spec (4.2): "a shared underlying handler object,
reused across concurrent connections, creates a race where a reply
generated for context A can be written to context B's channel if the
handler is still processing A's request when B's request begins binding to
the same handler". Accepting c rebinds the shared server to c's transport
(server.connect(transport), src/unnamed/part_001:120); a reply for c is
written to whatever transport the shared server is bound to at that
moment. The driver's own conclusion text names this mechanism:
"Responses are misrouted between concurrent streams when the shared server
instance calls server.connect(transport) with different transports"
(src/unnamed/part_002:340-342). -/
def step (s : RouterState) (a : Action) : RouterState :=
  match a with
  | .accept c => { s with boundTransport := some c }
  | .reply c =>
    match s.boundTransport with
    | some t => { s with deliveries := s.deliveries ++ [(t, c)] }
    | none => s

def run (acts : List Action) : RouterState :=
  acts.foldl step ⟨none, []⟩

end Part001

namespace McpMjs

/-- Router state of the per-request-server endpoint: the accepted
connections (each owning its private server bound to its own transport)
and the deliveries made so far, as (transport, content owner) pairs. -/
structure RouterState where
  acceptedConns : List Nat
  deliveries : List (Nat × Nat)
deriving DecidableEq

/-- In src/mcp.mjs each connection's server is connected to that
connection's transport and to no other (src/mcp.mjs:154-157), so a reply
for c is written to c's own transport. -/
def step (s : RouterState) (a : Action) : RouterState :=
  match a with
  | .accept c => { s with acceptedConns := s.acceptedConns ++ [c] }
  | .reply c =>
    if s.acceptedConns.contains c then
      { s with deliveries := s.deliveries ++ [(c, c)] }
    else s

def run (acts : List Action) : RouterState :=
  acts.foldl step ⟨[], []⟩

end McpMjs

/-- A deliveries list is cross-free when every event sits on the channel
of the connection that generated it. -/
def crossFree (ds : List (Nat × Nat)) : Bool :=
  ds.all (fun p => p.1 == p.2)

/-- C3: evaluated at the failing interleaving for the shared-server
variant — accept A (=1), accept B (=2) which rebinds the shared server to
B's transport, then A's reply is dispatched: it lands on B's channel
(transport 2) carrying content generated for A's request (connection 1),
while both connections are live. -/
theorem part001_cross_delivery :
    (Part001.run [Action.accept 1, Action.accept 2, Action.reply 1]).deliveries
      = [(2, 1)] ∧
      crossFree (Part001.run
        [Action.accept 1, Action.accept 2, Action.reply 1]).deliveries = false := by
  decide

theorem mcpMjs_step_crossFree (s : McpMjs.RouterState) (a : Action)
    (h : crossFree s.deliveries = true) :
    crossFree (McpMjs.step s a).deliveries = true := by
  cases a with
  | accept c => simpa [McpMjs.step] using h
  | reply c =>
    by_cases hc : s.acceptedConns.contains c = true <;>
      simp_all [McpMjs.step, crossFree, List.all_append] <;>
      assumption

/-- The per-request-server endpoint of src/mcp.mjs never cross-delivers:
under every interleaving of accepts and replies, every delivered event
sits on the channel of the connection whose request generated it. -/
theorem mcpMjs_no_cross_delivery (acts : List Action) :
    crossFree (McpMjs.run acts).deliveries = true := by
  suffices h : ∀ s : McpMjs.RouterState, crossFree s.deliveries = true →
      crossFree (acts.foldl McpMjs.step s).deliveries = true by
    exact h ⟨[], []⟩ rfl
  induction acts with
  | nil => intro s hs; simpa using hs
  | cons a tl ih =>
    intro s hs
    exact ih (McpMjs.step s a) (mcpMjs_step_crossFree s a hs)

/-- Server-side per-connection transport resources: released on close. -/
structure TransportState where
  tid : Nat
  closedFlag : Bool
  buffered : List Nat
deriving DecidableEq

/-- Modelled from the spec (4.2): closeConnection "releases the context's
resources; idempotent; safe to call from either the client-disconnect path
or normal completion path". transport.close itself is SDK code not under
src/; the spec fixes its contract: it releases the context's buffered
state and marks it closed, succeeding on an already-closed transport. -/
def transportClose (t : TransportState) : Except String TransportState :=
  .ok ⟨t.tid, true, []⟩

/-- The res.on('close') handler (src/mcp.mjs:143-150,
src/unnamed/part_001:111-117): awaits transport.close() inside try/catch,
so a failure of close is logged and swallowed, never re-raised; the
handler leaves the transport unchanged in that case. -/
def resCloseHandler (t : TransportState) : TransportState :=
  match transportClose t with
  | .ok closedT => closedT
  | .error _ => t

/-- C7: closing a connection's context on the response-close path is
idempotent — a second invocation has the same observable effect as one —
and the handler never lets an error propagate (it is a total function
whose try/catch absorbs any close failure by construction). -/
theorem resCloseHandler_idempotent (t : TransportState) :
    resCloseHandler (resCloseHandler t) = resCloseHandler t ∧
      (resCloseHandler t).closedFlag = true ∧
      (resCloseHandler t).buffered = [] := by
  exact ⟨rfl, rfl, rfl⟩

end Router

namespace Tools

/-- src/unnamed/part_000 (utils.mjs): size of the response returned by the
mock MCP tool. -/
def TOOL_RESPONSE_SIZE : Nat := 1000

/-- One item of a tool result's content array. -/
structure ContentItem where
  ctype : String
  text : String
deriving DecidableEq

/-- A call-tool result: content array plus the optional isError flag
(absent — none — on the success path). -/
structure ToolResult where
  content : List ContentItem
  isError : Option Bool
deriving DecidableEq

/-- JSON.stringify on a string none of whose characters needs escaping
(the payloads below are ASCII without quotes or backslashes): wrap in
double quotes. -/
def jsonQuote (s : String) : String :=
  "\"" ++ s ++ "\""

/-- A call-tool request as the part_001 handler receives it
(request.params.name plus arguments, both ignored by the handler body). -/
structure CallRequest where
  toolName : String
  args : List (String × String)
deriving DecidableEq

/-- The try/catch body of the CallToolRequestSchema handler
(src/unnamed/part_001:69-96), as a function of the outcome of the
payload-generation try block: on success, a single text block holding the
generated payload; on a thrown error, a single text block
`Error: <message>` with isError set to true. -/
def getDataBranch (gen : Except String String) : ToolResult :=
  match gen with
  | .ok payload => ⟨[⟨"text", payload⟩], none⟩
  | .error msg => ⟨[⟨"text", "Error: " ++ msg⟩], some true⟩

/-- The payload generation of the get-data tool
(src/unnamed/part_001:75-81): JSON.stringify of the character x repeated
TOOL_RESPONSE_SIZE times; it does not throw at this size. -/
def generatePayload : Except String String :=
  .ok (jsonQuote (String.mk (List.replicate TOOL_RESPONSE_SIZE 'x')))

/-- The complete CallToolRequestSchema handler of the get-data server
(src/unnamed/part_001:66-97): the request is never read by the body. -/
def callToolHandler (request : CallRequest) : ToolResult :=
  getDataBranch generatePayload

/-- A mock tool reply of src/mcp.mjs: the awaited sleep delay in
milliseconds followed by the returned result. -/
structure ToolReply where
  delayMs : Nat
  result : ToolResult
deriving DecidableEq

/-- JSON.stringify of the profile object literal
(src/mcp.mjs:70-76), key order as written. -/
def profileJson : String :=
  "\x7b\"uuid\":\"abc-123\",\"name\":\"Test LP\",\"type\":\"Pension Fund\",\"aum\":\x7b\"amount\":1000000000,\"currency\":\"USD\"\x7d,\"sectors\":[\"Tech\",\"Healthcare\"]\x7d"

/-- JSON.stringify of the query results array literal
(src/mcp.mjs:94-98). -/
def queryResultsJson : String :=
  "[\x7b\"id\":1,\"name\":\"Row 1\",\"value\":100\x7d,\x7b\"id\":2,\"name\":\"Row 2\",\"value\":200\x7d,\x7b\"id\":3,\"name\":\"Row 3\",\"value\":300\x7d]"

/-- get-profile handler (src/mcp.mjs:61-82): sleeps 800 ms, returns the
fixed profile JSON as one text block; takes no arguments. -/
def getProfileHandler (u : Unit) : ToolReply :=
  ⟨800, ⟨[⟨"text", profileJson⟩], none⟩⟩

/-- query-database handler (src/mcp.mjs:85-104): sleeps 1200 ms, returns
the fixed results JSON as one text block; takes no arguments. -/
def queryDatabaseHandler (u : Unit) : ToolReply :=
  ⟨1200, ⟨[⟨"text", queryResultsJson⟩], none⟩⟩

/-- enrich-data handler (src/mcp.mjs:107-120): sleeps 500 ms, returns a
fixed confirmation text block; takes no arguments. -/
def enrichDataHandler (u : Unit) : ToolReply :=
  ⟨500, ⟨[⟨"text", "Successfully enriched profile with new data"⟩], none⟩⟩

/-- C8: every mock tool handler is deterministic and independent of its
request arguments — get-data returns a single text block equal to
JSON.stringify of x repeated TOOL_RESPONSE_SIZE (1000) times for any two
requests, and the three src/mcp.mjs tools return their fixed payloads
after fixed delays of 800, 1200 and 500 ms; two calls to the same tool
yield identical results. -/
theorem toolHandlers_deterministic (r1 r2 : CallRequest) :
    callToolHandler r1 = callToolHandler r2 ∧
      callToolHandler r1 =
        ⟨[⟨"text", jsonQuote (String.mk (List.replicate TOOL_RESPONSE_SIZE 'x'))⟩],
          none⟩ ∧
      TOOL_RESPONSE_SIZE = 1000 ∧
      getProfileHandler () = ⟨800, ⟨[⟨"text", profileJson⟩], none⟩⟩ ∧
      queryDatabaseHandler () = ⟨1200, ⟨[⟨"text", queryResultsJson⟩], none⟩⟩ ∧
      enrichDataHandler () =
        ⟨500, ⟨[⟨"text", "Successfully enriched profile with new data"⟩], none⟩⟩ :=
  ⟨rfl, rfl, rfl, rfl, rfl, rfl⟩

/-- C9: the call-tool handler of the get-data server never propagates an
exception to the transport — it is a total function into ToolResult, and
by cases on the (only two) outcomes of payload generation: a thrown error
becomes a single text block with the error message and isError true, a
success carries the payload with isError absent. -/
theorem getDataBranch_total (s msg : String) :
    getDataBranch (Except.ok s) = ⟨[⟨"text", s⟩], none⟩ ∧
      getDataBranch (Except.error msg) =
        ⟨[⟨"text", "Error: " ++ msg⟩], some true⟩ ∧
      (getDataBranch (Except.ok s)).isError = none ∧
      (getDataBranch (Except.error msg)).isError = some true ∧
      (getDataBranch (Except.ok s)).content.length = 1 ∧
      (getDataBranch (Except.error msg)).content.length = 1 :=
  ⟨rfl, rfl, rfl, rfl, rfl, rfl⟩

end Tools

namespace ErrorPath

/-- The JSON-RPC error body sent by the /mcp catch blocks. -/
structure ErrorReply where
  code : Int
  message : String
deriving DecidableEq

/-- What the /mcp handler writes to the response before it closes. -/
inductive Emission
  | errorReply (e : ErrorReply)
  | normalResponse
deriving DecidableEq

/-- The /mcp request handler's emissions before the transport closes
(src/mcp.mjs:152-172, src/unnamed/part_001:119-135), as a function of the
outcome of the try block and of whether response headers had already been
sent when the failure surfaced: on success the normal response; on an
internal failure, a 500 JSON-RPC error reply only when res.headersSent is
false — when headers were already sent the catch logs and emits nothing,
and the transport closes with no error reply. -/
def handleMcpRequest (result : Except String Unit)
    (headersSentAtFailure : Bool) : List Emission :=
  match result with
  | .ok _ => [.normalResponse]
  | .error _ =>
    if headersSentAtFailure then []
    else [.errorReply ⟨-32603, "Internal server error"⟩]

/-- Counterexample to C6 as stated: an internal failure surfacing after
response headers were sent emits nothing — the transport closes with
neither an error reply nor a terminal event having been delivered (the
very defect the spec says the harness detects). -/
theorem handleMcp_headersSent_emits_nothing :
    handleMcpRequest (Except.error "stream write failure") true = [] := by
  rfl

/-- C6 (amended): on an internal failure while handling an /mcp request,
the server emits the -32603 error reply before the transport closes if and
only if response headers have not yet been sent; when they have, the
transport closes with neither an error nor a message_stop delivered. -/
theorem handleMcp_error_reply (msg : String) :
    handleMcpRequest (Except.error msg) false =
        [Emission.errorReply ⟨-32603, "Internal server error"⟩] ∧
      handleMcpRequest (Except.error msg) true = [] :=
  ⟨rfl, rfl⟩

end ErrorPath

namespace Drivers

/-- The CONFIG record shared in shape by both driver scripts
(src/anthropic.mjs:5-15, src/unnamed/part_002:5-15); the api key and url
are environment inputs and not part of the verdict logic. -/
structure DriverConfig where
  maxTokens : Nat
  concurrentStreams : Nat
  toolCallsPerStream : Nat
  iterations : Nat
deriving DecidableEq

/-- The per-stream result record returned by testSingleStream in both
drivers (duration is wall-clock time and outside the model). -/
structure StreamResult where
  streamId : Nat
  success : Bool
  errMessage : Option String
  toolCallsMade : Nat
  toolResultsReceived : Nat
deriving DecidableEq

namespace AnthropicMjs

/-- CONFIG of the non-streaming concurrent driver
(src/anthropic.mjs:5-15). -/
def CONFIG : DriverConfig :=
  ⟨4096, 30, 5, 3⟩

/-- One iteration of the counting loop over the final message content
(src/anthropic.mjs:88-106): the switch increments the mcp_tool_use or
mcp_tool_result counter and ignores every other block type. -/
def countStep (acc : Nat × Nat) (btype : String) : Nat × Nat :=
  if btype == "mcp_tool_use" then (acc.1 + 1, acc.2)
  else if btype == "mcp_tool_result" then (acc.1, acc.2 + 1)
  else acc

/-- The whole counting loop, from (0, 0), over the block types of the
final message content. -/
def countToolBlocks (content : List String) : Nat × Nat :=
  content.foldl countStep (0, 0)

/-- The success verdict (src/anthropic.mjs:109-111): both counters equal
CONFIG.toolCallsPerStream. -/
def successVerdict (u r : Nat) : Bool :=
  u == CONFIG.toolCallsPerStream && r == CONFIG.toolCallsPerStream

/-- The launch list built by testConcurrentStreams
(src/anthropic.mjs:172-174): one (streamId, startDelay) pair per
concurrent stream, ids 1..concurrentStreams, all with startDelay 0. -/
def streamLaunches : List (Nat × Nat) :=
  (List.range CONFIG.concurrentStreams).map (fun i => (i + 1, 0))

/-- The catch path of testSingleStream (src/anthropic.mjs:124-138): the
non-streaming call surfaces no per-event observations before its response
resolves, and the catch returns the error message with both counters at
their observed value, zero. -/
def catchResult (streamId : Nat) (errMessage : String) : StreamResult :=
  ⟨streamId, false, some errMessage, 0, 0⟩

end AnthropicMjs

namespace Part002

/-- CONFIG of the streaming concurrent driver
(src/unnamed/part_002:5-15). -/
def CONFIG : DriverConfig :=
  ⟨4096, 10, 5, 3⟩

/-- The events record accumulated by the stream callbacks
(src/unnamed/part_002:42-52): flags and the two counters incremented by
the contentBlock handler. -/
structure EventsRecord where
  connectFlag : Bool
  thinkingFlag : Bool
  textFlag : Bool
  mcp_tool_use_count : Nat
  mcp_tool_result_count : Nat
  messageStopFlag : Bool
  streamError : Bool
  abortFlag : Bool
  completedFlag : Bool
deriving DecidableEq

/-- The success verdict (src/unnamed/part_002:160-164): both counters
equal CONFIG.toolCallsPerStream, and neither a stream error nor an abort
event was observed. -/
def successVerdict (u r : Nat) (streamError abortFlag : Bool) : Bool :=
  u == CONFIG.toolCallsPerStream && r == CONFIG.toolCallsPerStream &&
    !streamError && !abortFlag

/-- The catch path of testSingleStream (src/unnamed/part_002:177-194):
returns the error message together with the counters as observed up to
the failure. -/
def catchResult (streamId : Nat) (events : EventsRecord)
    (errMessage : String) : StreamResult :=
  ⟨streamId, false, some errMessage, events.mcp_tool_use_count,
    events.mcp_tool_result_count⟩

end Part002

theorem countToolBlocks_spec (content : List String) :
    AnthropicMjs.countToolBlocks content =
      (content.count "mcp_tool_use", content.count "mcp_tool_result") := by
  suffices h : ∀ u r : Nat, content.foldl AnthropicMjs.countStep (u, r) =
      (u + content.count "mcp_tool_use",
        r + content.count "mcp_tool_result") by
    simpa [AnthropicMjs.countToolBlocks] using h 0 0
  induction content with
  | nil => intro u r; simp
  | cons b tl ih =>
    intro u r
    simp only [List.foldl_cons, List.count_cons]
    by_cases h1 : b = "mcp_tool_use"
    · subst h1
      simp [AnthropicMjs.countStep, ih, Prod.ext_iff]
      omega
    · by_cases h2 : b = "mcp_tool_result"
      · subst h2
        simp [AnthropicMjs.countStep, ih, Prod.ext_iff, h1]
        omega
      · simp [AnthropicMjs.countStep, ih, Prod.ext_iff, h1, h2]

/-- C4: the non-streaming concurrent driver opens exactly 30 connections
simultaneously (stream ids 1..30, every startDelay 0), and its verdict for
a stream is success exactly when both the mcp_tool_use count and the
mcp_tool_result count over the final message content equal 5, the
configured toolCallsPerStream. -/
theorem concurrentDriver_thirty_and_verdict :
    AnthropicMjs.CONFIG.concurrentStreams = 30 ∧
      AnthropicMjs.CONFIG.toolCallsPerStream = 5 ∧
      AnthropicMjs.streamLaunches.length = 30 ∧
      (AnthropicMjs.streamLaunches.all (fun p => p.2 == 0)) = true ∧
      ∀ content : List String,
        (AnthropicMjs.successVerdict (AnthropicMjs.countToolBlocks content).1
            (AnthropicMjs.countToolBlocks content).2 = true ↔
          (content.count "mcp_tool_use" = 5 ∧
            content.count "mcp_tool_result" = 5)) := by
  refine ⟨rfl, rfl, by decide, by decide, ?_⟩
  intro content
  rw [countToolBlocks_spec]
  simp [AnthropicMjs.successVerdict, AnthropicMjs.CONFIG]

/-- C5: on a stream failure, the streaming driver's returned result still
exposes the partial observation — exactly the mcp_tool_use and
mcp_tool_result counters accumulated before the failure — together with
the failure's message, and marks the stream unsuccessful; the
non-streaming driver's catch likewise returns its message together with
its (necessarily empty: the non-streaming call exposes no events before
the response resolves) observation of zero counted blocks. -/
theorem catchResult_exposes_partial (sid : Nat) (events : Part002.EventsRecord)
    (msg : String) :
    (Part002.catchResult sid events msg).toolCallsMade =
        events.mcp_tool_use_count ∧
      (Part002.catchResult sid events msg).toolResultsReceived =
        events.mcp_tool_result_count ∧
      (Part002.catchResult sid events msg).errMessage = some msg ∧
      (Part002.catchResult sid events msg).success = false ∧
      (AnthropicMjs.catchResult sid msg).errMessage = some msg ∧
      (AnthropicMjs.catchResult sid msg).success = false ∧
      (AnthropicMjs.catchResult sid msg).toolCallsMade = 0 ∧
      (AnthropicMjs.catchResult sid msg).toolResultsReceived = 0 :=
  ⟨rfl, rfl, rfl, rfl, rfl, rfl, rfl, rfl⟩

/-- Counterexample to C10 as stated: on the record (use = 5, result = 5,
stream-error observed, no abort) the non-streaming driver's verdict is
success while the streaming driver's is failure — the two drivers do not
compute the same verdict from the same observed record. -/
theorem verdicts_disagree_on_stream_error :
    AnthropicMjs.successVerdict 5 5 = true ∧
      Part002.successVerdict 5 5 true false = false := by
  decide

/-- C10 (amended): the streaming driver's verdict equals the non-streaming
driver's verdict conjoined with the negations of the stream-error and
abort flags; in particular the two coincide exactly on records where
neither flag is set. -/
theorem streaming_verdict_refines_nonstreaming (u r : Nat)
    (streamError abortFlag : Bool) :
    Part002.successVerdict u r streamError abortFlag =
      (AnthropicMjs.successVerdict u r && !streamError && !abortFlag) :=
  rfl

end Drivers
